import Mathlib

/-!
Verification development for `docs/map.js` of the ae2-preview repository:
a browser map module that loads station / satellite / orbit JSON data,
builds map features, polls a live satellite feed, swaps basemaps, and
renders escaped detail panels on click.

The JavaScript is shallowly embedded: JSON/JS values are modelled by an
inductive `JSVal` (with `NaN` as a first-class member of the number type,
since `typeof NaN === 'number'` is load-bearing for several claims),
features and layers are plain Lean structures, and the stateful live
updater becomes explicit state passing.  Platform primitives that the
repository merely calls (`ol.proj.fromLonLat`, `Number`, `String`,
`JSON.stringify`, `encodeURIComponent`) are modelled abstractly but
executably; everything written in `map.js` itself is translated
line by line.
-/

/-- A JavaScript number: either an actual rational value or `NaN`.
`typeof` reports `'number'` for both. -/
inductive JSNum where
  | num (q : ℚ)
  | nan
deriving DecidableEq, Repr

/-- A JavaScript/JSON value as handled by `map.js`. -/
inductive JSVal where
  | vundefined
  | vnull
  | vbool (b : Bool)
  | vnum (n : JSNum)
  | vstr (s : String)
  | varr (elems : List JSVal)
  | vobj (fields : List (String × JSVal))
deriving Repr

namespace JSVal

/-- JavaScript truthiness. -/
def truthy : JSVal → Bool
  | .vundefined => false
  | .vnull => false
  | .vbool b => b
  | .vnum (.num q) => q ≠ 0
  | .vnum .nan => false
  | .vstr s => s ≠ ""
  | .varr _ => true
  | .vobj _ => true

/-- The `??` operator: keep `v` unless it is `null`/`undefined`. -/
def nullish (v w : JSVal) : JSVal :=
  match v with
  | .vundefined => w
  | .vnull => w
  | _ => v

/-- The `||` operator: keep `v` if truthy, else `w`. -/
def orJS (v w : JSVal) : JSVal := if truthy v then v else w

/-- Property access `v.k`: `undefined` unless `v` is an object carrying `k`
(last duplicate key wins, as in JS object literals). -/
def getField (v : JSVal) (k : String) : JSVal :=
  match v with
  | .vobj fields =>
      (fields.foldl (fun acc kv => if kv.1 = k then some kv.2 else acc) none).getD .vundefined
  | _ => .vundefined

/-- `typeof v === 'number'` — true for `NaN` as well. -/
def typeofNumber : JSVal → Bool
  | .vnum _ => true
  | _ => false

/-- `v === 'lit'` for a string literal `lit`. -/
def isStrVal (v : JSVal) (lit : String) : Bool :=
  match v with
  | .vstr s => s = lit
  | _ => false

end JSVal

/-! ### `Number(...)` coercion

Model of the JS `ToNumber` conversion, restricted to the value shapes the
module's data can exercise: plain decimal numerals (optional sign, optional
single decimal point).  Exponents, hex literals and `Infinity` are not
modelled — nothing in the claims produces them — and any string outside
this grammar converts to `NaN`, exactly as `Number('bad')` does. -/

/-- Parse a nonempty list of decimal digits. -/
def parseDigits (cs : List Char) : Option ℕ :=
  match cs with
  | [] => none
  | _ =>
    cs.foldl
      (fun acc c =>
        match acc with
        | some n => if c.isDigit then some (n * 10 + (c.toNat - 48)) else none
        | none => none)
      (some 0)

/-- Parse an optionally signed decimal numeral (e.g. `-12`, `3.5`, `.5`, `7.`). -/
def parseDecimal (cs : List Char) : Option ℚ :=
  let signed : ℚ × List Char :=
    match cs with
    | '-' :: rest => (-1, rest)
    | '+' :: rest => (1, rest)
    | rest => (1, rest)
  let sgn := signed.1
  let body := signed.2
  let intPart := body.takeWhile (fun c => c ≠ '.')
  let rest := body.dropWhile (fun c => c ≠ '.')
  match rest with
  | [] =>
      match parseDigits intPart with
      | some n => some (sgn * n)
      | none => none
  | '.' :: fracPart =>
      if fracPart.any (fun c => c = '.') then none
      else if intPart = [] ∧ fracPart = [] then none
      else if (intPart ++ fracPart).all Char.isDigit then
        let ip : ℕ := (parseDigits intPart).getD 0
        let fp : ℕ := (parseDigits fracPart).getD 0
        some (sgn * ((ip : ℚ) + (fp : ℚ) / (10 : ℚ) ^ fracPart.length))
      else none
  | _ => none

/-- Strip leading and trailing whitespace from a character list. -/
def trimChars (cs : List Char) : List Char :=
  ((cs.dropWhile Char.isWhitespace).reverse.dropWhile Char.isWhitespace).reverse

/-- `Number(s)` on a string: empty/whitespace gives `0`, decimal numerals
parse, anything else is `NaN`. -/
def parseNumString (s : String) : JSNum :=
  let t := trimChars s.data
  if t = [] then .num 0
  else
    match parseDecimal t with
    | some q => .num q
    | none => .nan

/-- `Number(v)`.  Arrays and objects coerce through `toString`; the module
never feeds those shapes to `Number`, so they are conservatively `NaN`
(except `[]`, which JS coerces to `0`). -/
def jsToNumber : JSVal → JSNum
  | .vnum n => n
  | .vnull => .num 0
  | .vundefined => .nan
  | .vbool b => .num (if b then 1 else 0)
  | .vstr s => parseNumString s
  | .varr [] => .num 0
  | .varr (_ :: _) => .nan
  | .vobj _ => .nan

/-! ### Map geometry and features -/

/-- A coordinate pair in the map's display projection.  `ol.proj.fromLonLat`
is an injective library transform; the module only ever compares or stores
its outputs, so it is modelled as a tagging constructor keeping the inputs. -/
structure ProjCoord where
  px : JSNum
  py : JSNum
deriving DecidableEq, Repr

/-- Model of `ol.proj.fromLonLat([lon, lat])`. -/
def fromLonLat (lon lat : JSNum) : ProjCoord := ⟨lon, lat⟩

/-- Feature geometry: an `ol.geom.Point` or an `ol.geom.LineString`. -/
inductive Geometry where
  | point (c : ProjCoord)
  | line (cs : List ProjCoord)
deriving DecidableEq, Repr

/-- A feature property bag.  `Object.assign` merges are modelled by
appending; lookup takes the last binding of a key (so later writes win). -/
abbrev PropBag := List (String × JSVal)

/-- `feature.getProperties().k` (and `props.k` in the panel renderers). -/
def getProp (bag : PropBag) (k : String) : JSVal :=
  (bag.foldl (fun acc kv => if kv.1 = k then some kv.2 else acc) none).getD .vundefined

/-- An `ol.Feature`: geometry plus property bag.  Per-feature styles set by
`setStyle` are presentation-only and never read back by the module, so they
are not part of the model. -/
structure Feature where
  geometry : Geometry
  props : PropBag
deriving Repr

open JSVal

/-- `createMarker(lon, lat, color, label, props)` (map.js:103-119): returns
`null` unless both arguments have JS type `'number'` — note that `NaN`
passes this test — and otherwise a point feature with `name` merged last
into the property bag. -/
def createMarker (lon lat : JSVal) (color : String) (label : JSVal)
    (props : PropBag) : Option Feature :=
  match lon, lat with
  | .vnum lo, .vnum la =>
      some { geometry := .point (fromLonLat lo la)
             props := props ++ [("name", label)] }
  | _, _ => none

/-- The ground-station record mapping of `initMapLayers` (map.js:169-178):
alias resolution, `Number` coercion, then `createMarker`. -/
def stationFeature (s : JSVal) : Option Feature :=
  let lon := jsToNumber (nullish (getField s "lon") (getField s "lng"))
  let lat := jsToNumber (getField s "lat")
  createMarker (.vnum lon) (.vnum lat) "blue"
    (orJS (getField s "name") (orJS (getField s "callsign") (.vstr "Station")))
    [("type", .vstr "station"),
     ("id", nullish (getField s "id") (nullish (getField s "station_id") .vnull)),
     ("country", nullish (getField s "country") (nullish (getField s "cc") .vnull)),
     ("elevation_m", nullish (getField s "elevation_m") (nullish (getField s "elevation") .vnull)),
     ("raw", s)]

/-- The visible-satellite record mapping of `initMapLayers` (map.js:181-193). -/
def satelliteFeature (s : JSVal) : Option Feature :=
  let lon := jsToNumber (nullish (getField s "longitude_deg")
    (nullish (getField s "lon") (nullish (getField s "lng") (getField s "longitude"))))
  let lat := jsToNumber (nullish (getField s "latitude_deg")
    (nullish (getField s "lat") (getField s "latitude")))
  createMarker (.vnum lon) (.vnum lat) "red"
    (orJS (getField s "name") (orJS (getField s "satname") (.vstr "Satellite")))
    [("type", .vstr "satellite"),
     ("id", nullish (getField s "id") (nullish (getField s "sat_id")
       (nullish (getField s "norad_cat_id") .vnull))),
     ("altitude_km", nullish (getField s "altitude_km") (nullish (getField s "height_km")
       (nullish (getField s "elevation_km") .vnull))),
     ("tle_line1", nullish (getField s "tle_line1") (nullish (getField s "tle1") .vnull)),
     ("tle_line2", nullish (getField s "tle_line2") (nullish (getField s "tle2") .vnull)),
     ("raw", s)]

/-! ### Orbit lines -/

/-- One iteration of the `createLine` loop (map.js:126-132): an entry
contributes a projected coordinate exactly when it is an array whose
elements `pt[0]`, `pt[1]` both have JS type `'number'`. -/
def validPoint (pt : JSVal) : Option ProjCoord :=
  match pt with
  | .varr xs =>
      match xs.get? 0, xs.get? 1 with
      | some (.vnum la), some (.vnum lo) => some (fromLonLat lo la)
      | _, _ => none
  | _ => none

/-- `createLine(track, color, props)` (map.js:123-138).  The `track`
argument is the array the caller iterates with `for..of`. -/
def createLine (track : List JSVal) (color : String) (props : PropBag) :
    Option Feature :=
  let coords := track.filterMap validPoint
  if coords.isEmpty then none
  else some { geometry := .line coords, props := props }

/-- The orbit record mapping of `initMapLayers` (map.js:196-201); the track
is `o.track || o.path || []`, which this returns as a list (an object in
that chain that is not an array would make `for..of` throw, a shape the
data never has). -/
def orbitTrackOf (o : JSVal) : List JSVal :=
  match orJS (getField o "track") (orJS (getField o "path") (.varr [])) with
  | .varr xs => xs
  | _ => []

/-- The full orbit record mapping (map.js:196-201). -/
def orbitFeature (o : JSVal) : Option Feature :=
  createLine (orbitTrackOf o) "orange"
    [("type", .vstr "orbit"),
     ("name", orJS (getField o "name") (orJS (getField o "id") (.vstr "Orbit"))),
     ("period_min", nullish (getField o "period_min") (nullish (getField o "period") .vnull)),
     ("raw", o)]

/-- Spec-side notion for C4: an entry is well formed when it is an array
whose first two elements are numbers. -/
def wellFormedPair (pt : JSVal) : Bool :=
  match pt with
  | .varr xs =>
      match xs.get? 0, xs.get? 1 with
      | some (.vnum _), some (.vnum _) => true
      | _, _ => false
  | _ => false

/-- Spec-side projection of a well-formed `[lat, lon]` entry. -/
def pairProj (pt : JSVal) : ProjCoord :=
  match pt with
  | .varr xs =>
      match xs.get? 0, xs.get? 1 with
      | some (.vnum la), some (.vnum lo) => fromLonLat lo la
      | _, _ => fromLonLat .nan .nan
  | _ => fromLonLat .nan .nan

/-! ### Live satellite updater (map.js:232-260)

The mutable module state `liveSatLayer` / `liveSatFeatures` becomes an
explicit state record.  The vector layer shares its feature objects with
the array, so the model keeps one feature list plus the flag of whether
the layer has been created yet. -/

structure LiveState where
  hasLayer : Bool
  feats : List Feature
deriving Repr

/-- The first-load mapping (map.js:238-242). -/
def liveMarker (s : JSVal) : Option Feature :=
  let lon := jsToNumber (nullish (getField s "longitude")
    (nullish (getField s "lon") (getField s "lng")))
  let lat := jsToNumber (nullish (getField s "latitude") (getField s "lat"))
  createMarker (.vnum lon) (.vnum lat) "red"
    (orJS (getField s "name") (.vstr "LiveSat"))
    [("type", .vstr "satellite"), ("raw", s),
     ("id", nullish (getField s "id") (getField s "name"))]

/-- The alias-resolved, `Number`-coerced coordinates of a live entry
(map.js:247-248). -/
def liveCoords (sat : JSVal) : JSNum × JSNum :=
  (jsToNumber (nullish (getField sat "longitude")
     (nullish (getField sat "lon") (getField sat "lng"))),
   jsToNumber (nullish (getField sat "latitude") (getField sat "lat")))

/-- `geometry.setCoordinates` for the single-coordinate call the updater
makes.  Live features are always points (they come from `createMarker`);
the line arm is unreachable at this call site and left untouched. -/
def setCoordinates (g : Geometry) (c : ProjCoord) : Geometry :=
  match g with
  | .point _ => .point c
  | .line cs => .line cs

/-- The per-entry update body (map.js:247-252).  The guard
`typeof lon === 'number' && typeof lat === 'number'` is applied to the
results of `Number(...)`, which always have JS type `'number'` (`NaN`
included), so it is written exactly as in the source even though it can
never be false. -/
def liveUpdateOne (f : Feature) (sat : JSVal) : Feature :=
  let lon := (liveCoords sat).1
  let lat := (liveCoords sat).2
  let f1 :=
    if typeofNumber (.vnum lon) && typeofNumber (.vnum lat) then
      { f with geometry := setCoordinates f.geometry (fromLonLat lon lat) }
    else f
  { f1 with props := f1.props ++ [("raw", sat)] }

/-- One `forEach` step at index `i` (map.js:245-253): a missing
`liveSatFeatures[i]` returns early, otherwise the feature at `i` is
updated in place. -/
def liveStep (feats : List Feature) (i : ℕ) (sat : JSVal) : List Feature :=
  match feats[i]? with
  | none => feats
  | some f => feats.set i (liveUpdateOne f sat)

/-- `data.forEach((sat, i) => ...)` unrolled with an explicit next index. -/
def liveUpdateFrom (feats : List Feature) (i : ℕ) : List JSVal → List Feature
  | [] => feats
  | sat :: rest => liveUpdateFrom (liveStep feats i sat) (i + 1) rest

/-- The subsequent-response branch of `animateLiveSatellites`. -/
def liveUpdate (feats : List Feature) (data : List JSVal) : List Feature :=
  liveUpdateFrom feats 0 data

/-- Outcome of the `fetch` in `loadJSON` (map.js:12-16). -/
inductive FetchOutcome where
  | networkError
  | response (ok : Bool) (status : ℕ) (body : Option JSVal)

/-- `loadJSON` (map.js:12-16): a network/parse failure or a non-ok status
rejects, otherwise the parsed JSON is returned. -/
def loadJSON (url : String) (o : FetchOutcome) : Except String JSVal :=
  match o with
  | .networkError => .error "TypeError: Failed to fetch"
  | .response ok status body =>
      if !ok then .error ("Failed to load " ++ url ++ ": " ++ toString status)
      else
        match body with
        | some v => .ok v
        | none => .error "SyntaxError: Unexpected end of JSON input"

/-- The `try` body of `animateLiveSatellites` (map.js:235-254), with JS
exceptions surfaced as `Except.error`.  `data.map` / `data.forEach` on a
truthy non-array throws a `TypeError`. -/
def liveTickCore (st : LiveState) (data : JSVal) : Except String LiveState :=
  if !truthy data then .ok st
  else if !st.hasLayer then
    match data with
    | .varr xs => .ok { hasLayer := true, feats := xs.filterMap liveMarker }
    | _ => .error "TypeError: data.map is not a function"
  else
    match data with
    | .varr xs => .ok { st with feats := liveUpdate st.feats xs }
    | _ => .error "TypeError: data.forEach is not a function"

/-- One timer tick of `animateLiveSatellites` (map.js:233-258): any error
thrown by `loadJSON` or by the body is caught, logged, and leaves the
state untouched. -/
def liveTick (st : LiveState) (o : FetchOutcome) : LiveState :=
  match loadJSON "data/tle_live.json" o with
  | .error _ => st
  | .ok data =>
      match liveTickCore st data with
      | .ok st2 => st2
      | .error _ => st

/-- A successful fetch of the JSON value `v`. -/
def okFetch (v : JSVal) : FetchOutcome := .response true 200 (some v)

/-! ### Basemap switcher (map.js:4-8, 149-154, 263-270) -/

/-- A map layer.  The three base layers are tile layers keyed by the
selector value; overlays are vector layers (features) or the NDVI image
layer, distinguished so layer identity is decidable as it is for the JS
object identities `removeLayer` compares. -/
inductive Layer where
  | tile (key : String)
  | vector (id : ℕ)
  | image (id : ℕ)
deriving DecidableEq, Repr

/-- The `baseLayers` record lookup `baseLayers[value]` (map.js:4-8). -/
def baseLayersLookup (v : String) : Option Layer :=
  if v = "osm" ∨ v = "sat" ∨ v = "dark" then some (.tile v) else none

/-- The map's layer stack plus the `currentBaseLayer` module variable. -/
structure MapState where
  layers : List Layer
  currentBase : Layer
deriving Repr

/-- The basemap `change` handler (map.js:265-269): remove the current base
layer, pick `baseLayers[value] || baseLayers['osm']`, insert it at
index 0. -/
def basemapChange (st : MapState) (v : String) : MapState :=
  let removed := st.layers.erase st.currentBase
  let nb := (baseLayersLookup v).getD (.tile "osm")
  { layers := nb :: removed, currentBase := nb }

/-! ### Rendering strings: numbers, URI encoding, JSON, `String(...)`

These model the platform string conversions the panel renderers call.
Their exact digits are irrelevant to every claim; what matters (for C8)
is the character set they can emit, so they are written over explicit
digit lists that admit character-level reasoning. -/

/-- The hexadecimal digit characters `0-9A-F`. -/
def hexDigit (d : ℕ) : Char :=
  if d < 10 then Char.ofNat (48 + d) else Char.ofNat (55 + d)

/-- Decimal rendering of a natural number. -/
def natStr (n : ℕ) : String :=
  if n = 0 then "0" else ⟨((Nat.digits 10 n).map hexDigit).reverse⟩

/-- Left-pad a string with `'0'` to length `k`. -/
def padZeros (k : ℕ) (s : String) : String :=
  ⟨List.replicate (k - s.length) '0' ++ s.data⟩

/-- `Number.prototype.toFixed(dp)` (used by `formatNum` and the altitude
cell): fixed-point rounding; `NaN.toFixed` is `"NaN"`. -/
def toFixedJS (n : JSNum) (dp : ℕ) : String :=
  match n with
  | .nan => "NaN"
  | .num q =>
      let m : ℕ := (⌊|q| * (10 : ℚ) ^ dp + 1 / 2⌋).toNat
      let ip := m / 10 ^ dp
      let fp := m % 10 ^ dp
      (if q < 0 then "-" else "") ++ natStr ip ++
        (if dp = 0 then "" else "." ++ padZeros dp (natStr fp))

/-- Default JS number-to-string conversion.  Exact double formatting is
not reproduced; the model prints sign, numerator and (when non-integral)
denominator, drawing only on digits, `-`, `/` — the claims depend only on
this character set. -/
def numToString (n : JSNum) : String :=
  match n with
  | .nan => "NaN"
  | .num q =>
      (if q < 0 then "-" else "") ++ natStr q.num.natAbs ++
        (if q.den = 1 then "" else "/" ++ natStr q.den)

/-- One character of `encodeURIComponent` (ASCII model: unreserved
characters pass through, everything else is percent-encoded). -/
def encodeChar (c : Char) : List Char :=
  if c.isAlphanum || c ∈ ['-', '_', '.', '~', '*', '(', ')', '!'] then [c]
  else '%' :: hexDigit (c.toNat / 16 % 16) :: [hexDigit (c.toNat % 16)]

/-- `encodeURIComponent` (used in the station panel's map link). -/
def encodeURIComponent (s : String) : String := ⟨s.data.flatMap encodeChar⟩

mutual

/-- `String(v)` / template-literal coercion. -/
def jsToString : JSVal → String
  | .vundefined => "undefined"
  | .vnull => "null"
  | .vbool true => "true"
  | .vbool false => "false"
  | .vnum n => numToString n
  | .vstr s => s
  | .varr xs => jsToStringItems xs
  | .vobj _ => "[object Object]"

/-- Array `toString`: elements joined by `,` with `null`/`undefined`
printing as empty. -/
def jsToStringItems : List JSVal → String
  | [] => ""
  | [JSVal.vnull] => ""
  | [JSVal.vundefined] => ""
  | [x] => jsToString x
  | JSVal.vnull :: xs => "," ++ jsToStringItems xs
  | JSVal.vundefined :: xs => "," ++ jsToStringItems xs
  | x :: xs => jsToString x ++ "," ++ jsToStringItems xs

end

mutual

/-- Model of `JSON.stringify` (whitespace of the pretty-printed original
is not reproduced; the renderers always escape this output, so only its
existence matters to the claims). -/
def jsonStringify : JSVal → String
  | .vundefined => "null"
  | .vnull => "null"
  | .vbool true => "true"
  | .vbool false => "false"
  | .vnum n => numToString n
  | .vstr s => "\"" ++ s ++ "\""
  | .varr xs => "[" ++ jsonStringifyList xs ++ "]"
  | .vobj fs => "\x7b" ++ jsonStringifyFields fs ++ "\x7d"

def jsonStringifyList : List JSVal → String
  | [] => ""
  | [x] => jsonStringify x
  | x :: xs => jsonStringify x ++ "," ++ jsonStringifyList xs

def jsonStringifyFields : List (String × JSVal) → String
  | [] => ""
  | [(k, v)] => "\"" ++ k ++ "\":" ++ jsonStringify v
  | (k, v) :: fs => "\"" ++ k ++ "\":" ++ jsonStringify v ++ "," ++ jsonStringifyFields fs

end

/-! ### HTML escaping (map.js:310-312) -/

/-- `'&amp;'` without its leading ampersand. -/
def ampTail : List Char := ['a', 'm', 'p', ';']

/-- `'&lt;'` without its leading ampersand. -/
def ltTail : List Char := ['l', 't', ';']

/-- `'&gt;'` without its leading ampersand. -/
def gtTail : List Char := ['g', 't', ';']

/-- `.replace(/c/g, r)` for a single-character pattern: every occurrence
of `a` becomes `r`. -/
def replaceChar (a : Char) (r : List Char) : List Char → List Char
  | [] => []
  | c :: cs => (if c = a then r else [c]) ++ replaceChar a r cs

/-- The three chained global replaces of `escapeHtml`, on character
lists: `&` → `&amp;`, then `<` → `&lt;`, then `>` → `&gt;`. -/
def escapeList (l : List Char) : List Char :=
  replaceChar '>' ('&' :: gtTail)
    (replaceChar '<' ('&' :: ltTail)
      (replaceChar '&' ('&' :: ampTail) l))

/-- `escapeHtml(str)` (map.js:310-312): `String(str)` then the three
replaces. -/
def escapeHtml (v : JSVal) : String := ⟨escapeList (jsToString v).data⟩

/-! ### Panel renderers (map.js:304-420) -/

/-- `props.raw || {}`. -/
def rawOf (props : PropBag) : JSVal :=
  let r := getProp props "raw"
  if truthy r then r else .vobj []

/-- `formatNum(v, dp)` (map.js:314). -/
def formatNum (v : JSVal) (dp : ℕ) : String :=
  match v with
  | .vnum n => toFixedJS n dp
  | .vnull => "—"
  | .vundefined => "—"
  | w => jsToString w

/-- `.find(v => typeof v === 'number')` over a candidate list. -/
def firstNumber : List JSVal → Option JSNum
  | [] => none
  | .vnum n :: _ => some n
  | _ :: rest => firstNumber rest

/-- `readLatLon(props)` (map.js:316-323): ordered alias candidates from
`raw` then `props`; the result components are `null` (here `none`) when no
candidate has JS type `'number'`. -/
def readLatLon (props : PropBag) : Option JSNum × Option JSNum :=
  let raw := rawOf props
  let latCandidates := [getField raw "latitude", getField raw "latitude_deg",
    getField raw "lat", getField raw "lat_deg",
    getProp props "latitude", getProp props "latitude_deg",
    getProp props "lat", getProp props "lat_deg"]
  let lonCandidates := [getField raw "longitude", getField raw "longitude_deg",
    getField raw "lon", getField raw "lon_deg", getField raw "lng", getField raw "lng_deg",
    getProp props "longitude", getProp props "longitude_deg",
    getProp props "lon", getProp props "lon_deg", getProp props "lng"]
  (firstNumber latCandidates, firstNumber lonCandidates)

/-- `smallTableRow(k, v)` (map.js:325-327). -/
def smallTableRow (k : JSVal) (v : String) : String :=
  "<tr><td style=\"vertical-align:top; padding:4px 8px; font-weight:600; color:#cfcfcf\">"
    ++ escapeHtml k
    ++ "</td><td style=\"padding:4px 8px; color:#ddd\">" ++ v ++ "</td></tr>"

/-- The satellite panel's coordinates cell (map.js:340). -/
def satCoordsCell (props : PropBag) : String :=
  match readLatLon props with
  | (some la, some lo) => toFixedJS la 4 ++ "°, " ++ toFixedJS lo 4 ++ "°"
  | _ => "—"

/-- The satellite panel's altitude cell (map.js:337, 348). -/
def satAltCell (props : PropBag) : String :=
  let raw := rawOf props
  let altitude := nullish (getProp props "altitude_km")
    (nullish (getField raw "altitude_km") (nullish (getField raw "height_km")
      (nullish (getField raw "elevation_km") (nullish (getField raw "distance_km")
        (.vstr "—")))))
  match altitude with
  | .vnum n => toFixedJS n 2
  | v => escapeHtml v

/-- The satellite panel's TLE block (map.js:338-339, 351). -/
def satTleCell (props : PropBag) : String :=
  let raw := rawOf props
  let tle1 := orJS (getProp props "tle_line1") (orJS (getField raw "tle_line1")
    (orJS (getField raw "tle1") (orJS (getField raw "line1") (.vstr ""))))
  let tle2 := orJS (getProp props "tle_line2") (orJS (getField raw "tle_line2")
    (orJS (getField raw "tle2") (orJS (getField raw "line2") (.vstr ""))))
  if truthy tle1 then
    escapeHtml (.vstr (jsToString tle1 ++ "\n" ++ jsToString (orJS tle2 (.vstr ""))))
  else
    escapeHtml (orJS (getField raw "tle") (.vstr "N/A"))

/-- `showSatelliteInfo`'s `el.innerHTML` template (map.js:329-357). -/
def satHtml (props : PropBag) : String :=
  let raw := rawOf props
  let id := orJS (getProp props "id") (orJS (getField raw "id")
    (orJS (getField raw "norad_cat_id") (orJS (getField raw "sat_id") (.vstr "—"))))
  let name := orJS (getProp props "name") (orJS (getField raw "name")
    (orJS (getField raw "satname") (.vstr "Unknown")))
  "\n    <h4>Satellite Information</h4>\n    <table style=\"width:100%; border-collapse:collapse;\">\n      "
    ++ smallTableRow (.vstr "Name") (escapeHtml name)
    ++ "\n      " ++ smallTableRow (.vstr "ID / NORAD") (escapeHtml id)
    ++ "\n      " ++ smallTableRow (.vstr "Coordinates") (satCoordsCell props)
    ++ "\n      " ++ smallTableRow (.vstr "Altitude (km)") (satAltCell props)
    ++ "\n    </table>\n    <h5 style=\"margin:6px 0 4px 0;\">TLE / Orbit lines</h5>\n    <pre style=\"white-space:pre-wrap; color:#ddd; background:#111; padding:6px; border-radius:4px; max-height:160px; overflow:auto;\">"
    ++ satTleCell props
    ++ "</pre>\n    <details style=\"color:#ddd; margin-top:8px;\">\n      <summary>Raw data (JSON)</summary>\n      <pre style=\"white-space:pre-wrap; color:#ddd; background:#111; padding:6px; border-radius:4px; max-height:300px; overflow:auto;\">"
    ++ escapeHtml (.vstr (jsonStringify raw))
    ++ "</pre>\n    </details>\n  "

/-- The station panel's coordinates cell with its Google-Maps link
(map.js:369). -/
def stationCoordsCell (props : PropBag) : String :=
  match readLatLon props with
  | (some la, some lo) =>
      toFixedJS la 4 ++ "°, " ++ toFixedJS lo 4
        ++ "° <a style=\"color:#6fb3ff; margin-left:6px;\" href=\"https://www.google.com/maps/search/?api=1&query="
        ++ encodeURIComponent (numToString la ++ "," ++ numToString lo)
        ++ "\" target=\"_blank\" rel=\"noreferrer\">view</a>"
  | _ => "—"

/-- The station panel's elevation cell (map.js:367, 378): a number is
interpolated directly, anything else is escaped. -/
def stationElevCell (props : PropBag) : String :=
  let raw := rawOf props
  let elevation := nullish (getProp props "elevation_m")
    (nullish (getField raw "elevation_m") (nullish (getField raw "elevation") (.vstr "—")))
  match elevation with
  | .vnum n => numToString n
  | v => escapeHtml v

/-- `showStationInfo`'s `el.innerHTML` template (map.js:359-385). -/
def stationHtml (props : PropBag) : String :=
  let raw := rawOf props
  let name := orJS (getProp props "name") (orJS (getField raw "name")
    (orJS (getField raw "callsign") (.vstr "Ground Station")))
  let id := orJS (getProp props "id") (orJS (getField raw "id")
    (orJS (getField raw "station_id") (orJS (getField raw "callsign") (.vstr "—"))))
  let country := orJS (getProp props "country") (orJS (getField raw "country")
    (orJS (getField raw "cc") (.vstr "—")))
  "\n    <h4>Ground Station Information</h4>\n    <table style=\"width:100%; border-collapse:collapse; color:#ddd;\">\n      "
    ++ smallTableRow (.vstr "Name") (escapeHtml name)
    ++ "\n      " ++ smallTableRow (.vstr "Station ID") (escapeHtml id)
    ++ "\n      " ++ smallTableRow (.vstr "Country") (escapeHtml country)
    ++ "\n      " ++ smallTableRow (.vstr "Coordinates") (stationCoordsCell props)
    ++ "\n      " ++ smallTableRow (.vstr "Elevation (m)") (stationElevCell props)
    ++ "\n    </table>\n    <details style=\"color:#ddd; margin-top:8px;\">\n      <summary>Raw data (JSON)</summary>\n      <pre style=\"white-space:pre-wrap; color:#ddd; background:#111; padding:6px; border-radius:4px; max-height:300px; overflow:auto;\">"
    ++ escapeHtml (.vstr (jsonStringify raw))
    ++ "</pre>\n    </details>\n  "

/-- `pt[0]` / `pt[1]` index access for the orbit bbox computation. -/
def indexAt (v : JSVal) (i : ℕ) : JSVal :=
  match v with
  | .varr xs => (xs.get? i).getD .vundefined
  | _ => .vundefined

/-- `Math.min`/`Math.max` over the JS numbers of a list (`NaN` poisons). -/
def jsMinList (l : List ℚ) : ℚ := l.foldr min 0
def jsMaxList (l : List ℚ) : ℚ := l.foldr max 0

/-- Numeric entries of `track.map(pt => pt[i]).filter(typeof number)`;
a `NaN` entry is kept by the filter and poisons min/max, which the bbox
cell below folds through `JSNum`. -/
def trackComponent (track : List JSVal) (i : ℕ) : List JSNum :=
  track.filterMap (fun pt =>
    match indexAt pt i with
    | .vnum n => some n
    | _ => none)

/-- Fold a `JSNum` list to min/max, with `NaN` propagating. -/
def jsNumFold (f : List ℚ → ℚ) (l : List JSNum) : JSNum :=
  if l.any (fun n => n = .nan) then .nan
  else .num (f (l.filterMap (fun n => match n with | .num q => some q | .nan => none)))

/-- The orbit panel's bounding-box cell (map.js:396-405). -/
def orbitBboxCell (track : List JSVal) : String :=
  if track.length = 0 then "—"
  else
    let lats := trackComponent track 0
    let lons := trackComponent track 1
    if lats.length ≠ 0 ∧ lons.length ≠ 0 then
      toFixedJS (jsNumFold jsMinList lats) 3 ++ "°, " ++ toFixedJS (jsNumFold jsMinList lons) 3
        ++ "° → " ++ toFixedJS (jsNumFold jsMaxList lats) 3 ++ "°, "
        ++ toFixedJS (jsNumFold jsMaxList lons) 3 ++ "°"
    else "—"

/-- The orbit panel's period cell (map.js:393, 411). -/
def orbitPeriodCell (props : PropBag) : String :=
  let raw := rawOf props
  let period := nullish (getProp props "period_min")
    (nullish (getField raw "period_min") (nullish (getField raw "period") (.vstr "—")))
  match period with
  | .vnum n => numToString n
  | v => escapeHtml v

/-- `showOrbitInfo`'s `el.innerHTML` template (map.js:387-420). -/
def orbitHtml (props : PropBag) : String :=
  let raw := rawOf props
  let name := orJS (getProp props "name") (orJS (getField raw "name") (.vstr "Orbit"))
  let track : List JSVal :=
    match getField raw "track" with
    | .varr xs => xs
    | _ => match getProp props "track" with
           | .varr xs => xs
           | _ => []
  "\n    <h4>Orbit Information</h4>\n    <table style=\"width:100%; border-collapse:collapse; color:#ddd;\">\n      "
    ++ smallTableRow (.vstr "Name") (escapeHtml name)
    ++ "\n      " ++ smallTableRow (.vstr "Approx. Period (min)") (orbitPeriodCell props)
    ++ "\n      " ++ smallTableRow (.vstr "Track Points") (natStr track.length)
    ++ "\n      " ++ smallTableRow (.vstr "Bounding Box") (orbitBboxCell track)
    ++ "\n    </table>\n    <details style=\"color:#ddd; margin-top:8px;\">\n      <summary>Raw data (JSON)</summary>\n      <pre style=\"white-space:pre-wrap; color:#ddd; background:#111; padding:6px; border-radius:4px; max-height:400px; overflow:auto;\">"
    ++ escapeHtml (.vstr (jsonStringify raw))
    ++ "</pre>\n    </details>\n  "

/-- `observerLocation` (map.js:148). -/
def observerLocation : JSNum × JSNum := (.num (1076 / 10), .num (-(69 / 10)))

/-- The observer branch of the click handler (map.js:437-441). -/
def observerHtml (props : PropBag) : String :=
  "<h4>Observer</h4><p>"
    ++ escapeHtml (orJS (getProp props "description") (.vstr "Observer location"))
    ++ "</p><p><b>Coordinates:</b> " ++ formatNum (.vnum observerLocation.2) 4
    ++ ", " ++ formatNum (.vnum observerLocation.1) 4 ++ "</p>"

/-- The unknown-feature fallback of the click handler (map.js:442-447). -/
def unknownHtml (props : PropBag) : String :=
  "<h4>Feature</h4><pre style=\"white-space:pre-wrap; color:#ddd; background:#111; padding:6px; border-radius:4px;\">"
    ++ escapeHtml (.vstr (jsonStringify (.vobj props)))
    ++ "</pre>"

/-! ### Detail panels and the click handler (map.js:304-308, 428-448) -/

/-- One sidebar panel element: its `style.display` state and `innerHTML`. -/
structure Panel where
  visible : Bool
  html : String
deriving DecidableEq, Repr

/-- The three detail-panel DOM elements (`satellite-info`,
`ground-station-info`, `orbit-info`), which the page markup provides. -/
structure Panels where
  satInfo : Panel
  stationInfo : Panel
  orbitInfo : Panel
deriving DecidableEq, Repr

/-- `clearViewerPanels()` (map.js:304-308): hide all three panels. -/
def clearViewerPanels (p : Panels) : Panels :=
  { satInfo := { p.satInfo with visible := false },
    stationInfo := { p.stationInfo with visible := false },
    orbitInfo := { p.orbitInfo with visible := false } }

/-- `showSatelliteInfo(props)` (map.js:329-357). -/
def showSatelliteInfo (p : Panels) (props : PropBag) : Panels :=
  { p with satInfo := ⟨true, satHtml props⟩ }

/-- `showStationInfo(props)` (map.js:359-385). -/
def showStationInfo (p : Panels) (props : PropBag) : Panels :=
  { p with stationInfo := ⟨true, stationHtml props⟩ }

/-- `showOrbitInfo(props)` (map.js:387-420). -/
def showOrbitInfo (p : Panels) (props : PropBag) : Panels :=
  { p with orbitInfo := ⟨true, orbitHtml props⟩ }

/-- The feature-type resolution shared by the style function and the click
handler (map.js:25 and map.js:432): an explicit truthy `type` property
wins, otherwise the geometry kind decides. -/
def resolveFeatureType (f : Feature) : JSVal :=
  let t := getProp f.props "type"
  if truthy t then t
  else
    match f.geometry with
    | .line _ => .vstr "orbit"
    | .point _ =>
        if isStrVal (getProp f.props "name") "Observer" then .vstr "observer"
        else .vstr "unknown"

/-- The `singleclick` handler (map.js:428-448), given the topmost feature
the hit test resolved (or `none`). -/
def handleSingleClick (p : Panels) (hit : Option Feature) : Panels :=
  match hit with
  | none => clearViewerPanels p
  | some f =>
      let props := f.props
      let t := resolveFeatureType f
      let p1 := clearViewerPanels p
      if isStrVal t "satellite" then showSatelliteInfo p1 props
      else if isStrVal t "station" || isStrVal t "ground_station" then
        showStationInfo p1 props
      else if isStrVal t "orbit" then showOrbitInfo p1 props
      else if isStrVal t "observer" then
        { p1 with satInfo := ⟨true, observerHtml props⟩ }
      else
        { p1 with satInfo := ⟨true, unknownHtml props⟩ }

/-- Number of visible detail panels. -/
def visibleCount (p : Panels) : ℕ :=
  (if p.satInfo.visible then 1 else 0) + (if p.stationInfo.visible then 1 else 0)
    + (if p.orbitInfo.visible then 1 else 0)

/-! ### Style resolver (map.js:23-101) -/

/-- An `ol.style.Stroke`. -/
structure StrokeStyle where
  color : String
  width : ℚ
deriving DecidableEq, Repr

/-- An `ol.style.Circle` or `ol.style.Icon` image. -/
inductive ImageStyle where
  | circle (radius : ℚ) (fill : String) (stroke : StrokeStyle)
  | icon (src : String) (scale : ℚ) (anchorX anchorY : ℚ)
deriving DecidableEq, Repr

/-- An `ol.style.Style`: optional image, optional stroke, optional
overriding point geometry (used by the orbit's icon style). -/
structure Style where
  image : Option ImageStyle := none
  stroke : Option StrokeStyle := none
  geom : Option ProjCoord := none
deriving DecidableEq, Repr

/-- The orbit branch's first-track-point icon coordinate (map.js:62-66). -/
def orbitIconCoords (props : PropBag) : Option ProjCoord :=
  let raw := rawOf props
  let track : List JSVal :=
    match getField raw "track" with
    | .varr xs => xs
    | _ => match getProp props "track" with
           | .varr xs => xs
           | _ => []
  match track with
  | [] => none
  | t0 :: _ =>
      match t0 with
      | .varr xs =>
          match xs.get? 0, xs.get? 1 with
          | some (.vnum a), some (.vnum b) => some (fromLonLat b a)
          | _, _ => none
      | _ => none

/-- `makeFeatureStyle(feature, hover)` (map.js:23-101), returning the
style list (a single style is a one-element list, as OpenLayers accepts
either). -/
def makeFeatureStyle (f : Feature) (hover : Bool) : List Style :=
  let t := resolveFeatureType f
  let hoverMul : ℚ := if hover then 1.4 else 1.0
  if isStrVal t "observer" then
    [{ image := some (.circle (7 * hoverMul) "green" ⟨"#fff", 1⟩) }]
  else if isStrVal t "station" then
    [{ image := some (.icon "assets/antenna.png" (0.08 * hoverMul) 0.5 1) }]
  else if isStrVal t "satellite" then
    [{ image := some (.icon "assets/satellite.png" (0.06 * hoverMul) 0.5 0.5) }]
  else if isStrVal t "orbit" then
    let strokeS : Style :=
      { stroke := some ⟨if hover then "#ffa500" else "orange", if hover then 4 else 2⟩ }
    match orbitIconCoords f.props with
    | some c =>
        [strokeS,
         { image := some (.icon "assets/satellite.png" (0.06 * hoverMul) 0.5 0.5),
           geom := some c }]
    | none => [strokeS]
  else
    [{ image := some (.circle (6 * hoverMul) "gray" ⟨"#fff", 1⟩) }]

/-! ### Claim-side definitions

These transcribe what the specification asserts, to be compared with the
definitions above that transcribe the code. -/

/-- C9's description of the hover effect on an image: a 1.4× multiplier on
icon scale and circle radius, everything else unchanged. -/
def hoverImage : ImageStyle → ImageStyle
  | .circle r fill st => .circle (1.4 * r) fill st
  | .icon src sc ax ay => .icon src (1.4 * sc) ax ay

/-- C9's description of the hover effect on a whole style: images gain the
1.4× multiplier, an orbit stroke becomes the hover color `#ffa500` with
width 4, geometry is untouched. -/
def hoverStyleMap (s : Style) : Style :=
  { image := s.image.map hoverImage,
    stroke := s.stroke.map (fun _ => ⟨"#ffa500", 4⟩),
    geom := s.geom }

/-- Does `leadsWith p l` hold, i.e. is `p` an initial segment of `l`? -/
def leadsWith : List Char → List Char → Bool
  | [], _ => true
  | _ :: _, [] => false
  | p :: ps, c :: cs => p == c && leadsWith ps cs

/-- After an `&`, one of the three entity tails must follow. -/
def entityTailAt (cs : List Char) : Bool :=
  leadsWith ampTail cs || leadsWith ltTail cs || leadsWith gtTail cs

/-- C8's safety predicate on escaped output: no `<`, no `>`, and every `&`
begins one of the entities `&amp;` `&lt;` `&gt;`. -/
def escOk : List Char → Bool
  | [] => true
  | c :: cs =>
      if c = '<' || c = '>' then false
      else if c = '&' then entityTailAt cs && escOk cs
      else escOk cs

/-- What one character contributes to the escaped output. -/
def escBlock (c : Char) : List Char :=
  if c = '&' then '&' :: ampTail
  else if c = '<' then '&' :: ltTail
  else if c = '>' then '&' :: gtTail
  else [c]

/-- Markup-character count of a string: occurrences of `<` plus
occurrences of `>`.  The panel templates contribute a fixed number of
these; C8 asserts payload data contributes none. -/
def mkCount (s : String) : ℕ := s.data.count '<' + s.data.count '>'

/-- Whether the station panel shows the coordinates/link cell (both
`readLatLon` components resolved). -/
def coordsShown (props : PropBag) : Bool :=
  match readLatLon props with
  | (some _, some _) => true
  | _ => false

/-! ### Concrete inputs used by the claim theorems and witnesses -/

/-- The spec's own good station record `{name:"X", lat:10, lon:20}`. -/
def stationRecX : JSVal :=
  .vobj [("name", .vstr "X"), ("lat", .vnum (.num 10)), ("lon", .vnum (.num 20))]

/-- The spec's own bad station record `{name:"Y", lat:"bad", lon:20}`. -/
def stationRecY : JSVal :=
  .vobj [("name", .vstr "Y"), ("lat", .vstr "bad"), ("lon", .vnum (.num 20))]

/-- A live-feed entry with numeric coordinates. -/
def liveEntryGood : JSVal :=
  .vobj [("name", .vstr "A"), ("longitude", .vnum (.num 10)), ("latitude", .vnum (.num 20))]

/-- The same satellite one tick later, with unparsable coordinates. -/
def liveEntryBad : JSVal :=
  .vobj [("name", .vstr "A"), ("longitude", .vstr "bad"), ("latitude", .vstr "bad")]

/-- Live state after the first response `[liveEntryGood]`. -/
def liveStateOne : LiveState := liveTick ⟨false, []⟩ (okFetch (.varr [liveEntryGood]))

/-- Live state after the second response `[liveEntryBad]`. -/
def liveStateTwo : LiveState := liveTick liveStateOne (okFetch (.varr [liveEntryBad]))

/-- A one-feature live state for the C3 witness. -/
def witnessFeats : List Feature :=
  [{ geometry := .point (fromLonLat (.num 10) (.num 20)),
     props := [("type", .vstr "satellite")] }]

/-- A one-entry response for the C3 witness. -/
def witnessData : List JSVal :=
  [.vobj [("longitude", .vnum (.num 30)), ("latitude", .vnum (.num 40))]]

/-- A two-entry orbit track (one valid pair, one junk entry) for C4. -/
def witnessTrack : List JSVal :=
  [.varr [.vnum (.num 1), .vnum (.num 2)], .vstr "junk"]

/-- A station-typed feature for the C6 witness. -/
def witnessStationFeature : Feature :=
  { geometry := .point (fromLonLat (.num 0) (.num 0)),
    props := [("type", .vstr "station")] }

/-- A panel state with stale visible panels for the C6 witness. -/
def witnessPanels : Panels :=
  { satInfo := ⟨true, "old"⟩, stationInfo := ⟨false, ""⟩, orbitInfo := ⟨true, "old"⟩ }

/-- A map state with the base layer at the bottom for the C7 witness. -/
def witnessMapState : MapState :=
  { layers := [.tile "osm", .vector 1, .image 2], currentBase := .tile "osm" }

/-- An observer-typed feature for the C9 witness. -/
def witnessObserverFeature : Feature :=
  { geometry := .point (fromLonLat (.num 0) (.num 0)),
    props := [("type", .vstr "observer")] }

/-- Property bags with and without resolvable coordinates for the C8
witness. -/
def witnessBagNoCoords : PropBag := [("name", .vstr "<script>alert(1)</script>")]

def witnessBagNoCoordsB : PropBag := [("name", .vstr "plain")]

/-! ## Helper lemmas -/

/-- A key appended last wins the property-bag lookup. -/
theorem getProp_append_last (bag : PropBag) (k : String) (v : JSVal) :
    getProp (bag ++ [(k, v)]) k = v := by
  unfold getProp
  rw [List.foldl_append]
  simp

/-- `liveStep` preserves length. -/
theorem liveStep_length (feats : List Feature) (i : ℕ) (sat : JSVal) :
    (liveStep feats i sat).length = feats.length := by
  unfold liveStep
  cases h : feats[i]? <;> simp

/-- `liveStep` at `i` leaves any other index unchanged. -/
theorem liveStep_getElem_ne (feats : List Feature) (i j : ℕ) (sat : JSVal)
    (h : i ≠ j) : (liveStep feats i sat)[j]? = feats[j]? := by
  unfold liveStep
  cases hf : feats[i]? with
  | none => rfl
  | some f => exact List.getElem?_set_ne h

/-- `liveStep` at `i` maps the feature at `i` through `liveUpdateOne`. -/
theorem liveStep_getElem_eq (feats : List Feature) (i : ℕ) (sat : JSVal) :
    (liveStep feats i sat)[i]? = (feats[i]?).map (fun f => liveUpdateOne f sat) := by
  unfold liveStep
  cases hf : feats[i]? with
  | none => simp [hf]
  | some f =>
      obtain ⟨hlt, -⟩ := List.getElem?_eq_some.mp hf
      simp [hf, List.getElem?_set_eq_of_lt _ hlt]

/-- `liveUpdateFrom` preserves length. -/
theorem liveUpdateFrom_length (data : List JSVal) :
    ∀ (feats : List Feature) (k : ℕ), (liveUpdateFrom feats k data).length = feats.length := by
  induction data with
  | nil => intro feats k; rfl
  | cons sat rest ih =>
      intro feats k
      show (liveUpdateFrom (liveStep feats k sat) (k + 1) rest).length = _
      rw [ih, liveStep_length]

/-- Indices below the running index are never touched. -/
theorem liveUpdateFrom_getElem_lo (data : List JSVal) :
    ∀ (feats : List Feature) (k j : ℕ), j < k →
      (liveUpdateFrom feats k data)[j]? = feats[j]? := by
  induction data with
  | nil => intro feats k j _; rfl
  | cons sat rest ih =>
      intro feats k j hj
      show (liveUpdateFrom (liveStep feats k sat) (k + 1) rest)[j]? = _
      rw [ih _ _ _ (Nat.lt_succ_of_lt hj), liveStep_getElem_ne _ _ _ _ (by omega)]

/-- Indices at or beyond the data range are never touched. -/
theorem liveUpdateFrom_getElem_hi (data : List JSVal) :
    ∀ (feats : List Feature) (k j : ℕ), k + data.length ≤ j →
      (liveUpdateFrom feats k data)[j]? = feats[j]? := by
  induction data with
  | nil => intro feats k j _; rfl
  | cons sat rest ih =>
      intro feats k j hj
      show (liveUpdateFrom (liveStep feats k sat) (k + 1) rest)[j]? = _
      rw [ih _ _ _ (by simp at hj ⊢; omega),
        liveStep_getElem_ne _ _ _ _ (by simp at hj; omega)]

/-- Each in-range index is updated from the matching data entry. -/
theorem liveUpdateFrom_getElem_mid (data : List JSVal) :
    ∀ (feats : List Feature) (k j : ℕ) (sat : JSVal), data[j]? = some sat →
      (liveUpdateFrom feats k data)[k + j]?
        = (feats[k + j]?).map (fun f => liveUpdateOne f sat) := by
  induction data with
  | nil => intro feats k j sat h; simp at h
  | cons sat' rest ih =>
      intro feats k j sat h
      show (liveUpdateFrom (liveStep feats k sat') (k + 1) rest)[k + j]? = _
      cases j with
      | zero =>
          simp only [List.getElem?_cons_zero, Option.some.injEq] at h
          rw [liveUpdateFrom_getElem_lo _ _ _ _ (by omega), ← h]
          simpa using liveStep_getElem_eq feats k sat'
      | succ j' =>
          simp only [List.getElem?_cons_succ] at h
          have := ih (liveStep feats k sat') (k + 1) j' sat h
          rw [show k + (j' + 1) = k + 1 + j' by omega, this,
            liveStep_getElem_ne _ _ _ _ (by omega)]

/-- The always-true numeric guard makes `liveUpdateOne` unconditionally
rewrite the geometry and append the raw payload. -/
theorem liveUpdateOne_eq (f : Feature) (sat : JSVal) :
    liveUpdateOne f sat
      = { geometry := setCoordinates f.geometry
            (fromLonLat (liveCoords sat).1 (liveCoords sat).2),
          props := f.props ++ [("raw", sat)] } := rfl

/-! ## Claim theorems -/

/-- C1: the claim states that a station/satellite record whose coordinate
aliases do not resolve to numbers yields no marker, and in particular that
`{name:"Y", lat:"bad", lon:20}` yields no marker.  The code disagrees:
`Number('bad')` is `NaN`, `typeof NaN === 'number'`, so `createMarker`'s
guard passes and the record yields a marker whose latitude is `NaN`.  This
theorem evaluates the embedded pipeline at the spec's two example records:
the good record produces the marker the claim describes, and the bad
record — contrary to the claim — also produces a marker, at
`fromLonLat(20, NaN)`. -/
theorem claim1_invalid_latitude_record_still_yields_marker :
    (∃ f, stationFeature stationRecX = some f
       ∧ f.geometry = .point (fromLonLat (.num 20) (.num 10)))
    ∧ (∃ f, stationFeature stationRecY = some f
       ∧ f.geometry = .point (fromLonLat (.num 20) .nan)) :=
  ⟨⟨_, rfl, by decide⟩, ⟨_, rfl, by decide⟩⟩

/-- C2: the claim states that on a subsequent live response the geometry
update is skipped when the entry's coordinates are not both numeric.  The
code coerces with `Number(...)` first and then tests `typeof`, which `NaN`
passes, so the update is never skipped: after a second response whose
coordinates are the string `"bad"`, the existing feature's geometry has
been rewritten to the `NaN` projection (while the raw payload is replaced,
which matches the claim).  This theorem evaluates the two ticks. -/
theorem claim2_nonnumeric_live_update_not_skipped :
    (∃ f, liveStateOne.feats[0]? = some f
       ∧ f.geometry = .point (fromLonLat (.num 10) (.num 20)))
    ∧ (∃ f, liveStateTwo.feats[0]? = some f
       ∧ f.geometry = .point (fromLonLat .nan .nan)
       ∧ getProp f.props "raw" = liveEntryBad) :=
  ⟨⟨_, rfl, by decide⟩, ⟨_, rfl, by decide, rfl⟩⟩

/-- C5: whenever `loadJSON` fails (network error, non-ok status, or parse
failure), the live tick returns the state unchanged: the feature list,
every feature in it, and the layer flag are exactly as before. -/
theorem claim5_fetch_failure_preserves_state (st : LiveState) (o : FetchOutcome)
    (e : String) (h : loadJSON "data/tle_live.json" o = .error e) :
    liveTick st o = st := by
  unfold liveTick
  rw [h]

/-- Witness for C5 at a concrete failing fetch and concrete state. -/
theorem claim5_witness :
    loadJSON "data/tle_live.json" FetchOutcome.networkError
        = .error "TypeError: Failed to fetch"
    ∧ liveTick ⟨true, witnessFeats⟩ FetchOutcome.networkError = ⟨true, witnessFeats⟩ :=
  ⟨rfl, claim5_fetch_failure_preserves_state ⟨true, witnessFeats⟩
    FetchOutcome.networkError _ rfl⟩

/-- C10: a click that hits no feature hides all three detail panels and
changes nothing else (each panel's `innerHTML` is left as it was). -/
theorem claim10_empty_click_hides_all_panels (p : Panels) :
    handleSingleClick p none
      = { satInfo := ⟨false, p.satInfo.html⟩,
          stationInfo := ⟨false, p.stationInfo.html⟩,
          orbitInfo := ⟨false, p.orbitInfo.html⟩ } := rfl

/-- C7: with the invariant the code maintains (the current base layer sits
at the bottom of the stack), a basemap change removes exactly that one
layer and inserts exactly the selected replacement (falling back to OSM)
at index 0, so the overlay list `rest` — its count and its order — is
untouched. -/
theorem claim7_basemap_swap_preserves_overlays (st : MapState) (v : String)
    (rest : List Layer) (h : st.layers = st.currentBase :: rest) :
    (basemapChange st v).layers = ((baseLayersLookup v).getD (.tile "osm")) :: rest
    ∧ (basemapChange st v).layers.length = st.layers.length := by
  unfold basemapChange
  rw [h]
  simp [List.erase_cons_head]

/-- Witness for C7: swapping to the dark basemap on a stack with two
overlays. -/
theorem claim7_witness :
    witnessMapState.layers = witnessMapState.currentBase :: [.vector 1, .image 2]
    ∧ (basemapChange witnessMapState "dark").layers
        = [.tile "dark", .vector 1, .image 2]
    ∧ (basemapChange witnessMapState "dark").layers.length
        = witnessMapState.layers.length :=
  ⟨rfl,
   (claim7_basemap_swap_preserves_overlays witnessMapState "dark" _ rfl).1,
   (claim7_basemap_swap_preserves_overlays witnessMapState "dark" _ rfl).2⟩

/-- C3: running the updater on a subsequent response (all of whose entries
have numeric coordinates, and with the live features being the point
markers the first load built) (a) leaves the feature count unchanged,
(b) rewrites each feature at an index shared with the response to the
entry's new projected coordinates and replaces its raw payload, and
(c) leaves features at indices beyond the response untouched (no shrink);
(a) holding for responses of any length also gives that indices beyond the
feature count create nothing (no growth). -/
theorem claim3_live_update_moves_markers_and_preserves_count
    (feats : List Feature) (data : List JSVal)
    (hpoints : ∀ f ∈ feats, ∃ c, f.geometry = Geometry.point c)
    (hnumeric : ∀ sat ∈ data, (liveCoords sat).1 ≠ .nan ∧ (liveCoords sat).2 ≠ .nan) :
    (liveUpdate feats data).length = feats.length
    ∧ (∀ (i : ℕ) (sat : JSVal) (f : Feature), data[i]? = some sat → feats[i]? = some f →
        (liveUpdate feats data)[i]? = some (liveUpdateOne f sat)
        ∧ (liveUpdateOne f sat).geometry
            = .point (fromLonLat (liveCoords sat).1 (liveCoords sat).2)
        ∧ getProp (liveUpdateOne f sat).props "raw" = sat)
    ∧ (∀ i, data.length ≤ i → (liveUpdate feats data)[i]? = feats[i]?) := by
  refine ⟨liveUpdateFrom_length data feats 0, ?_, ?_⟩
  · intro i sat f hdata hfeat
    refine ⟨?_, ?_, ?_⟩
    · have := liveUpdateFrom_getElem_mid data feats 0 i sat hdata
      simpa [liveUpdate, hfeat] using this
    · obtain ⟨c, hc⟩ := hpoints f (List.getElem?_mem hfeat)
      rw [liveUpdateOne_eq]
      simp [hc, setCoordinates]
    · rw [liveUpdateOne_eq]
      exact getProp_append_last _ _ _
  · intro i hi
    exact liveUpdateFrom_getElem_hi data feats 0 i (by omega)

/-- Witness for C3: one point feature, one numeric response entry. -/
theorem claim3_witness :
    (∀ f ∈ witnessFeats, ∃ c, f.geometry = Geometry.point c)
    ∧ (∀ sat ∈ witnessData, (liveCoords sat).1 ≠ .nan ∧ (liveCoords sat).2 ≠ .nan)
    ∧ (liveUpdate witnessFeats witnessData).length = witnessFeats.length
    ∧ (liveUpdate witnessFeats witnessData)[0]?
        = some { geometry := .point (fromLonLat (.num 30) (.num 40)),
                 props := [("type", .vstr "satellite"),
                   ("raw", .vobj [("longitude", .vnum (.num 30)),
                     ("latitude", .vnum (.num 40))])] } := by
  have h1 : ∀ f ∈ witnessFeats, ∃ c, f.geometry = Geometry.point c := by
    intro f hf
    simp only [witnessFeats, List.mem_singleton] at hf
    exact ⟨_, by rw [hf]⟩
  have h2 : ∀ sat ∈ witnessData, (liveCoords sat).1 ≠ .nan ∧ (liveCoords sat).2 ≠ .nan := by
    intro sat hs
    simp only [witnessData, List.mem_singleton] at hs
    rw [hs]
    exact ⟨by decide, by decide⟩
  have main := claim3_live_update_moves_markers_and_preserves_count
    witnessFeats witnessData h1 h2
  refine ⟨h1, h2, main.1, ?_⟩
  have := (main.2.1 0 (.vobj [("longitude", .vnum (.num 30)),
    ("latitude", .vnum (.num 40))])
    { geometry := .point (fromLonLat (.num 10) (.num 20)),
      props := [("type", .vstr "satellite")] } rfl rfl).1
  rw [this]
  rfl

/-- C4: `createLine` produces no feature exactly when no track entry is an
array whose first two elements are numbers; and as soon as one entry is,
it produces a line feature whose geometry is precisely the projected valid
pairs, in their original order, with the malformed entries skipped. -/
theorem claim4_createLine_keeps_exactly_valid_pairs
    (track : List JSVal) (color : String) (props : PropBag) :
    (createLine track color props = none
      ↔ ∀ pt ∈ track, wellFormedPair pt = false)
    ∧ ((∃ pt ∈ track, wellFormedPair pt = true) →
        createLine track color props
          = some { geometry := .line ((track.filter wellFormedPair).map pairProj),
                   props := props }) := by
  have hvp : ∀ pt, validPoint pt
      = if wellFormedPair pt then some (pairProj pt) else none := by
    intro pt
    cases pt with
    | varr xs =>
        simp only [validPoint, wellFormedPair, pairProj]
        cases h0 : xs[0]? with
        | none => simp [h0]
        | some v0 =>
            cases h1 : xs[1]? with
            | none => cases v0 <;> simp [h0, h1]
            | some v1 => cases v0 <;> cases v1 <;> simp [h0, h1]
    | vundefined => rfl
    | vnull => rfl
    | vbool b => rfl
    | vnum n => rfl
    | vstr s => rfl
    | vobj fs => rfl
  have hfm : ∀ l : List JSVal,
      l.filterMap validPoint = (l.filter wellFormedPair).map pairProj := by
    intro l
    induction l with
    | nil => rfl
    | cons a l ih =>
        rw [List.filterMap_cons, hvp a]
        by_cases ha : wellFormedPair a
        · simp [ha, ih]
        · simp [ha, ih]
  have hiff : createLine track color props = none
      ↔ track.filter wellFormedPair = [] := by
    rw [createLine, hfm]
    by_cases hc : track.filter wellFormedPair = []
    · simp [hc]
    · have hne : (track.filter wellFormedPair).map pairProj ≠ [] := by
        simpa using hc
      simp [List.isEmpty_iff, hne, hc]
  constructor
  · rw [hiff, List.filter_eq_nil_iff]
    simp [Bool.not_eq_true]
  · intro ⟨pt, hpt, hwf⟩
    rw [createLine, hfm]
    have hne : (track.filter wellFormedPair).map pairProj ≠ [] := by
      simp only [ne_eq, List.map_eq_nil_iff, List.filter_eq_nil_iff]
      push_neg
      exact ⟨pt, hpt, by simp [hwf]⟩
    simp [List.isEmpty_iff, hne]

/-- Witness for C4 on a mixed track: one valid pair, one junk entry. -/
theorem claim4_witness :
    (∃ pt ∈ witnessTrack, wellFormedPair pt = true)
    ∧ createLine witnessTrack "orange" []
        = some { geometry := .line [fromLonLat (.num 2) (.num 1)], props := [] } := by
  have hex : ∃ pt ∈ witnessTrack, wellFormedPair pt = true :=
    ⟨.varr [.vnum (.num 1), .vnum (.num 2)], by simp [witnessTrack], rfl⟩
  refine ⟨hex, ?_⟩
  have := (claim4_createLine_keeps_exactly_valid_pairs witnessTrack "orange" []).2 hex
  rw [this]
  rfl

/-- `isStrVal` characterisation. -/
theorem isStrVal_eq_true (v : JSVal) (lit : String) :
    isStrVal v lit = true ↔ v = .vstr lit := by
  cases v <;> simp [isStrVal]

/-- C6: a click resolving to a feature whose property bag carries type
`"station"` (or `"ground_station"`) clears all panels and then shows
exactly the station panel; and for every click whatsoever at most one
panel is visible afterwards. -/
theorem claim6_station_click_opens_only_station_panel :
    (∀ (p : Panels) (f : Feature),
      (getProp f.props "type" = .vstr "station"
        ∨ getProp f.props "type" = .vstr "ground_station") →
      (handleSingleClick p (some f)).stationInfo.visible = true
      ∧ (handleSingleClick p (some f)).satInfo.visible = false
      ∧ (handleSingleClick p (some f)).orbitInfo.visible = false)
    ∧ (∀ (p : Panels) (hit : Option Feature),
        visibleCount (handleSingleClick p hit) ≤ 1) := by
  constructor
  · intro p f h
    have ht : resolveFeatureType f = getProp f.props "type" := by
      rcases h with h | h <;> simp [resolveFeatureType, h, truthy]
    rcases h with h | h <;>
      simp [handleSingleClick, ht, h, isStrVal, showStationInfo, clearViewerPanels]
  · intro p hit
    cases hit with
    | none => simp [handleSingleClick, visibleCount, clearViewerPanels]
    | some f =>
        by_cases h1 : isStrVal (resolveFeatureType f) "satellite" = true
        · simp [handleSingleClick, h1, visibleCount, showSatelliteInfo, clearViewerPanels]
        · by_cases h2 : isStrVal (resolveFeatureType f) "station" = true
          · simp [handleSingleClick, h1, h2, visibleCount, showStationInfo,
              clearViewerPanels]
          · by_cases h3 : isStrVal (resolveFeatureType f) "ground_station" = true
            · simp [handleSingleClick, h1, h2, h3, visibleCount, showStationInfo,
                clearViewerPanels]
            · by_cases h4 : isStrVal (resolveFeatureType f) "orbit" = true
              · simp [handleSingleClick, h1, h2, h3, h4, visibleCount, showOrbitInfo,
                  clearViewerPanels]
              · by_cases h5 : isStrVal (resolveFeatureType f) "observer" = true
                · simp [handleSingleClick, h1, h2, h3, h4, h5, visibleCount,
                    clearViewerPanels]
                · simp [handleSingleClick, h1, h2, h3, h4, h5, visibleCount,
                    clearViewerPanels]

/-- Witness for C6: clicking a station feature while other panels are
stale-open. -/
theorem claim6_witness :
    (getProp witnessStationFeature.props "type" = .vstr "station"
      ∨ getProp witnessStationFeature.props "type" = .vstr "ground_station")
    ∧ (handleSingleClick witnessPanels (some witnessStationFeature)).stationInfo.visible
        = true
    ∧ (handleSingleClick witnessPanels (some witnessStationFeature)).satInfo.visible
        = false
    ∧ (handleSingleClick witnessPanels (some witnessStationFeature)).orbitInfo.visible
        = false :=
  ⟨Or.inl rfl,
   (claim6_station_click_opens_only_station_panel.1 witnessPanels
      witnessStationFeature (Or.inl rfl)).1,
   (claim6_station_click_opens_only_station_panel.1 witnessPanels
      witnessStationFeature (Or.inl rfl)).2.1,
   (claim6_station_click_opens_only_station_panel.1 witnessPanels
      witnessStationFeature (Or.inl rfl)).2.2⟩

/-- C9: for every feature, the hover style is exactly the non-hover style
transformed by the claim's hover map — a 1.4× multiplier on icon scales
and circle radii, stroke replaced by the `#ffa500`/width-4 hover stroke,
geometry untouched — and the non-hover base sizes are radius 7 for
observer, scale 0.08 for station, scale 0.06 for satellite, stroke
`orange`/width 2 for orbit, radius 6 for the fallback. -/
theorem claim9_hover_style_relation (f : Feature) :
    makeFeatureStyle f true = (makeFeatureStyle f false).map hoverStyleMap
    ∧ (isStrVal (resolveFeatureType f) "observer" = true →
        makeFeatureStyle f false
          = [{ image := some (.circle 7 "green" ⟨"#fff", 1⟩) }])
    ∧ (isStrVal (resolveFeatureType f) "station" = true →
        makeFeatureStyle f false
          = [{ image := some (.icon "assets/antenna.png" 0.08 0.5 1) }])
    ∧ (isStrVal (resolveFeatureType f) "satellite" = true →
        makeFeatureStyle f false
          = [{ image := some (.icon "assets/satellite.png" 0.06 0.5 0.5) }])
    ∧ (isStrVal (resolveFeatureType f) "orbit" = true →
        (makeFeatureStyle f false).head? = some { stroke := some ⟨"orange", 2⟩ }
        ∧ (makeFeatureStyle f true).head? = some { stroke := some ⟨"#ffa500", 4⟩ })
    ∧ (isStrVal (resolveFeatureType f) "observer" = false →
        isStrVal (resolveFeatureType f) "station" = false →
        isStrVal (resolveFeatureType f) "satellite" = false →
        isStrVal (resolveFeatureType f) "orbit" = false →
        makeFeatureStyle f false
          = [{ image := some (.circle 6 "gray" ⟨"#fff", 1⟩) }]) := by
  by_cases h1 : resolveFeatureType f = .vstr "observer"
  · refine ⟨?_, ?_, ?_, ?_, ?_, ?_⟩ <;>
      simp [makeFeatureStyle, h1, isStrVal, hoverStyleMap, hoverImage] <;> norm_num
  · by_cases h2 : resolveFeatureType f = .vstr "station"
    · refine ⟨?_, ?_, ?_, ?_, ?_, ?_⟩ <;>
        simp [makeFeatureStyle, h2, isStrVal, hoverStyleMap, hoverImage] <;> norm_num
    · by_cases h3 : resolveFeatureType f = .vstr "satellite"
      · refine ⟨?_, ?_, ?_, ?_, ?_, ?_⟩ <;>
          simp [makeFeatureStyle, h3, isStrVal, hoverStyleMap, hoverImage] <;> norm_num
      · by_cases h4 : resolveFeatureType f = .vstr "orbit"
        · cases hc : orbitIconCoords f.props with
          | none =>
              refine ⟨?_, ?_, ?_, ?_, ?_, ?_⟩ <;>
                simp [makeFeatureStyle, h4, hc, isStrVal, hoverStyleMap, hoverImage] <;>
                norm_num
          | some c =>
              refine ⟨?_, ?_, ?_, ?_, ?_, ?_⟩ <;>
                simp [makeFeatureStyle, h4, hc, isStrVal, hoverStyleMap, hoverImage] <;>
                norm_num
        · have e1 : isStrVal (resolveFeatureType f) "observer" = false := by
            rw [← Bool.not_eq_true, isStrVal_eq_true]; exact h1
          have e2 : isStrVal (resolveFeatureType f) "station" = false := by
            rw [← Bool.not_eq_true, isStrVal_eq_true]; exact h2
          have e3 : isStrVal (resolveFeatureType f) "satellite" = false := by
            rw [← Bool.not_eq_true, isStrVal_eq_true]; exact h3
          have e4 : isStrVal (resolveFeatureType f) "orbit" = false := by
            rw [← Bool.not_eq_true, isStrVal_eq_true]; exact h4
          refine ⟨?_, ?_, ?_, ?_, ?_, ?_⟩ <;>
            simp [makeFeatureStyle, e1, e2, e3, e4, hoverStyleMap, hoverImage] <;>
            norm_num

/-- Witness for C9 at a concrete observer feature. -/
theorem claim9_witness :
    isStrVal (resolveFeatureType witnessObserverFeature) "observer" = true
    ∧ makeFeatureStyle witnessObserverFeature true
        = (makeFeatureStyle witnessObserverFeature false).map hoverStyleMap
    ∧ makeFeatureStyle witnessObserverFeature false
        = [{ image := some (.circle 7 "green" ⟨"#fff", 1⟩) }] :=
  ⟨rfl,
   (claim9_hover_style_relation witnessObserverFeature).1,
   (claim9_hover_style_relation witnessObserverFeature).2.1 rfl⟩

/-! ### Escaping lemmas for C8 -/

/-- `replaceChar` distributes over append. -/
theorem replaceChar_append (a : Char) (r l₁ l₂ : List Char) :
    replaceChar a r (l₁ ++ l₂) = replaceChar a r l₁ ++ replaceChar a r l₂ := by
  induction l₁ with
  | nil => rfl
  | cons c cs ih => simp [replaceChar, ih]

/-- Escaping a cons is the character's block followed by the escaped
tail. -/
theorem escapeList_cons (c : Char) (l : List Char) :
    escapeList (c :: l) = escBlock c ++ escapeList l := by
  by_cases h1 : c = '&'
  · subst h1; rfl
  · by_cases h2 : c = '<'
    · subst h2; rfl
    · by_cases h3 : c = '>'
      · subst h3; rfl
      · simp [escapeList, replaceChar, escBlock, h1, h2, h3]

/-- A block prepended to any list does not disturb `escOk`. -/
theorem escOk_escBlock_append (c : Char) (t : List Char) :
    escOk (escBlock c ++ t) = escOk t := by
  by_cases h1 : c = '&'
  · subst h1; rfl
  · by_cases h2 : c = '<'
    · subst h2; rfl
    · by_cases h3 : c = '>'
      · subst h3; rfl
      · simp [escBlock, escOk, h1, h2, h3]

/-- The escaped form of any character list satisfies the safety
predicate. -/
theorem escOk_escapeList (l : List Char) : escOk (escapeList l) = true := by
  induction l with
  | nil => rfl
  | cons c cs ih => rw [escapeList_cons, escOk_escBlock_append, ih]

/-- `escOk` output contains neither `<` nor `>`. -/
theorem escOk_counts (cs : List Char) (h : escOk cs = true) :
    cs.count '<' = 0 ∧ cs.count '>' = 0 := by
  induction cs with
  | nil => simp
  | cons c cs ih =>
      by_cases hlt : c = '<'
      · simp [escOk, hlt] at h
      · by_cases hgt : c = '>'
        · simp [escOk, hgt] at h
        · have hcs : escOk cs = true := by
            by_cases hamp : c = '&'
            · simp [escOk, hamp, hlt, hgt] at h
              exact h.2
            · simpa [escOk, hamp, hlt, hgt] using h
          obtain ⟨ih1, ih2⟩ := ih hcs
          constructor <;> simp [List.count_cons, ih1, ih2, hlt, hgt] <;> omega

/-- String data of an append. -/
theorem data_append (a b : String) : (a ++ b).data = a.data ++ b.data := by
  cases a; cases b; rfl

/-- `mkCount` is additive. -/
theorem mkCount_append (a b : String) : mkCount (a ++ b) = mkCount a + mkCount b := by
  simp only [mkCount, data_append, List.count_append]
  omega

/-- Escaped strings contribute no markup characters. -/
theorem mkCount_escapeHtml (v : JSVal) : mkCount (escapeHtml v) = 0 := by
  obtain ⟨h1, h2⟩ := escOk_counts _ (escOk_escapeList (jsToString v).data)
  simp [mkCount, escapeHtml, h1, h2]

/-- Hexadecimal digit characters are not markup characters. -/
theorem hexDigit_ne (d : ℕ) (hd : d < 16) : hexDigit d ≠ '<' ∧ hexDigit d ≠ '>' := by
  interval_cases d <;> exact ⟨by decide, by decide⟩

/-- Decimal renderings of naturals contain no markup characters. -/
theorem natStr_counts (n : ℕ) :
    (natStr n).data.count '<' = 0 ∧ (natStr n).data.count '>' = 0 := by
  unfold natStr
  by_cases h : n = 0
  · simp [h]
  · simp only [h, if_false]
    constructor <;>
      { rw [List.count_eq_zero]
        intro hmem
        rw [List.mem_reverse, List.mem_map] at hmem
        obtain ⟨d, hd, hdc⟩ := hmem
        have hlt10 : d < 10 := Nat.digits_lt_base (by norm_num) hd
        have := hexDigit_ne d (by omega)
        rw [hdc] at this
        first
        | exact this.1 rfl
        | exact this.2 rfl }

/-- `mkCount` version of the previous lemma. -/
theorem mkCount_natStr (n : ℕ) : mkCount (natStr n) = 0 := by
  obtain ⟨h1, h2⟩ := natStr_counts n
  simp [mkCount, h1, h2]

/-- Zero padding adds no markup characters. -/
theorem mkCount_padZeros (k : ℕ) (s : String) : mkCount (padZeros k s) = mkCount s := by
  simp [mkCount, padZeros, List.count_append, List.count_replicate]

/-- `toFixed` output contains no markup characters. -/
theorem mkCount_toFixed (n : JSNum) (dp : ℕ) : mkCount (toFixedJS n dp) = 0 := by
  cases n with
  | nan => exact (show mkCount "NaN" = 0 by decide)
  | num q =>
      simp only [toFixedJS]
      rw [mkCount_append, mkCount_append]
      have h1 : mkCount (if q < 0 then "-" else "") = 0 := by split <;> decide
      have h2 : mkCount (if dp = 0 then ""
          else "." ++ padZeros dp (natStr ((⌊|q| * (10 : ℚ) ^ dp + 1 / 2⌋).toNat % 10 ^ dp))) = 0 := by
        split
        · decide
        · rw [mkCount_append, mkCount_padZeros, mkCount_natStr]
          decide
      rw [h1, h2, mkCount_natStr]

/-- Default number rendering contains no markup characters. -/
theorem mkCount_numToString (n : JSNum) : mkCount (numToString n) = 0 := by
  cases n with
  | nan => decide
  | num q =>
      simp only [numToString]
      rw [mkCount_append, mkCount_append]
      have h1 : mkCount (if q < 0 then "-" else "") = 0 := by split <;> decide
      have h2 : mkCount (if q.den = 1 then "" else "/" ++ natStr q.den) = 0 := by
        split
        · decide
        · rw [mkCount_append, mkCount_natStr]; decide
      rw [h1, h2, mkCount_natStr]

/-- One percent-encoded character contains no markup characters. -/
theorem encodeChar_counts (c : Char) :
    (encodeChar c).count '<' = 0 ∧ (encodeChar c).count '>' = 0 := by
  unfold encodeChar
  split
  next h =>
      have hlt : c ≠ '<' := by rintro rfl; revert h; decide
      have hgt : c ≠ '>' := by rintro rfl; revert h; decide
      simp [List.count_cons, hlt, hgt]
  next =>
      have m1 := hexDigit_ne (c.toNat / 16 % 16) (Nat.mod_lt _ (by norm_num))
      have m2 := hexDigit_ne (c.toNat % 16) (Nat.mod_lt _ (by norm_num))
      simp [List.count_cons, m1.1, m1.2, m2.1, m2.2]

/-- `encodeURIComponent` output contains no markup characters. -/
theorem mkCount_encode (s : String) : mkCount (encodeURIComponent s) = 0 := by
  suffices h : ∀ l : List Char,
      (l.flatMap encodeChar).count '<' = 0 ∧ (l.flatMap encodeChar).count '>' = 0 by
    obtain ⟨h1, h2⟩ := h s.data
    simp [mkCount, encodeURIComponent, h1, h2]
  intro l
  induction l with
  | nil => simp
  | cons c cs ih =>
      obtain ⟨e1, e2⟩ := encodeChar_counts c
      simp [List.flatMap_cons, List.count_append, e1, e2, ih.1, ih.2]

/-- One table row contributes twelve markup characters plus whatever its
(escaped or numeric) value cell contributes. -/
theorem mkCount_smallTableRow (k : JSVal) (v : String) :
    mkCount (smallTableRow k v) = 12 + mkCount v := by
  unfold smallTableRow
  rw [mkCount_append, mkCount_append, mkCount_append, mkCount_append,
    mkCount_escapeHtml]
  have h1 : mkCount "<tr><td style=\"vertical-align:top; padding:4px 8px; font-weight:600; color:#cfcfcf\">" = 4 := by decide
  have h2 : mkCount "</td><td style=\"padding:4px 8px; color:#ddd\">" = 4 := by decide
  have h3 : mkCount "</td></tr>" = 4 := by decide
  omega

/-- The satellite coordinates cell contributes no markup characters. -/
theorem mkCount_satCoordsCell (props : PropBag) : mkCount (satCoordsCell props) = 0 := by
  unfold satCoordsCell
  split
  · rw [mkCount_append, mkCount_append, mkCount_append, mkCount_toFixed,
      mkCount_toFixed]
    decide
  · decide

/-- The satellite altitude cell contributes no markup characters. -/
theorem mkCount_satAltCell (props : PropBag) : mkCount (satAltCell props) = 0 := by
  unfold satAltCell
  dsimp only
  split
  · exact mkCount_toFixed _ _
  · exact mkCount_escapeHtml _

/-- The TLE block contributes no markup characters. -/
theorem mkCount_satTleCell (props : PropBag) : mkCount (satTleCell props) = 0 := by
  unfold satTleCell
  dsimp only
  split
  · exact mkCount_escapeHtml _
  · exact mkCount_escapeHtml _

/-- The station elevation cell contributes no markup characters. -/
theorem mkCount_stationElevCell (props : PropBag) :
    mkCount (stationElevCell props) = 0 := by
  unfold stationElevCell
  dsimp only
  split
  · exact mkCount_numToString _
  · exact mkCount_escapeHtml _

/-- The station coordinates cell contributes exactly the map link's four
markup characters when coordinates resolve, none otherwise. -/
theorem mkCount_stationCoordsCell (props : PropBag) :
    mkCount (stationCoordsCell props) = if coordsShown props then 4 else 0 := by
  rcases h : readLatLon props with ⟨a, b⟩
  rcases a with _ | la <;> rcases b with _ | lo <;>
    simp only [stationCoordsCell, coordsShown, h] <;>
    first
    | decide
    | (rw [mkCount_append, mkCount_append, mkCount_append, mkCount_append,
        mkCount_append, mkCount_toFixed, mkCount_toFixed, mkCount_encode]
       decide)

/-- C8: (a) for every value — in particular every upstream string — the
output of `escapeHtml` contains no `<`, no `>`, and no `&` except as the
head of one of the entities `&amp;` `&lt;` `&gt;` it introduces; (b) the
satellite panel's markup-character count is independent of the property
bag, and (c) so is the station panel's given its coordinates-cell branch,
i.e. every string derived from upstream data reaches the panel HTML only
through `escapeHtml` (or as digit-rendered numbers) and cannot inject
markup. -/
theorem claim8_escaping_prevents_markup_injection :
    (∀ v : JSVal, escOk (escapeHtml v).data = true)
    ∧ (∀ p q : PropBag, mkCount (satHtml p) = mkCount (satHtml q))
    ∧ (∀ p q : PropBag, coordsShown p = coordsShown q →
        mkCount (stationHtml p) = mkCount (stationHtml q)) := by
  refine ⟨fun v => escOk_escapeList (jsToString v).data, ?_, ?_⟩
  · intro p q
    simp only [satHtml, mkCount_append, mkCount_smallTableRow, mkCount_escapeHtml,
      mkCount_satCoordsCell, mkCount_satAltCell, mkCount_satTleCell]
  · intro p q h
    simp only [stationHtml, mkCount_append, mkCount_smallTableRow, mkCount_escapeHtml,
      mkCount_stationCoordsCell, mkCount_stationElevCell, h]

/-- Witness for C8: the branch hypothesis discharged on two concrete bags
(one of them carrying a script-tag payload). -/
theorem claim8_witness :
    coordsShown witnessBagNoCoords = coordsShown witnessBagNoCoordsB
    ∧ mkCount (stationHtml witnessBagNoCoords) = mkCount (stationHtml witnessBagNoCoordsB)
    ∧ mkCount (satHtml witnessBagNoCoords) = mkCount (satHtml witnessBagNoCoordsB) :=
  ⟨rfl,
   claim8_escaping_prevents_markup_injection.2.2 witnessBagNoCoords witnessBagNoCoordsB rfl,
   claim8_escaping_prevents_markup_injection.2.1 witnessBagNoCoords witnessBagNoCoordsB⟩
